import Mathlib

/-!
Verification of the "Human Body Systems Viewer" repository: a Tkinter
launcher (`gui.py`, `Systems/Cardiac_System.py`) and a standalone PyVista
heart-mesh viewer (`visualization.py`).  The Python sources are shallowly
embedded below: module-level constants become Lean constants (floats as
exact rationals), filesystem and toolkit effects become explicit data
(a directory is a list of entry names, an actor is a record of its VTK
properties, parsing is a function into `Option`), and `sys.exit` becomes
`Except.error`.
-/

/-! ## visualization.py — data model -/

/-- A color triple, as in the Python `(r, g, b)` float tuples. -/
abbrev Color := ℚ × ℚ × ℚ

/-- `HEART_COLORS['muscle_tissue']` from visualization.py lines 56-61. -/
def muscle_tissue : List Color :=
  [(0.85, 0.45, 0.45), (0.90, 0.50, 0.50), (0.88, 0.48, 0.48), (0.82, 0.42, 0.42)]

/-- `HEART_COLORS['arterial']` from visualization.py lines 62-66. -/
def arterial : List Color :=
  [(0.92, 0.35, 0.35), (0.88, 0.32, 0.32), (0.85, 0.30, 0.30)]

/-- `HEART_COLORS['venous']` from visualization.py lines 67-71. -/
def venous : List Color :=
  [(0.60, 0.70, 0.85), (0.55, 0.65, 0.82), (0.50, 0.60, 0.80)]

/-- `ALL_COLORS` (visualization.py lines 75-79): the muscle-tissue list
repeated twice (Python `list * 2`), then the arterial list, then the
venous list. -/
def ALL_COLORS : List Color :=
  (muscle_tissue ++ muscle_tissue) ++ arterial ++ venous

/-- `DEFAULT_OPACITY` (visualization.py line 85). -/
def DEFAULT_OPACITY : ℚ := 1.0

/-- The four scalar entries of `LIGHTING_CONFIG` (visualization.py lines 88-93). -/
structure LightingConfig where
  ambient : ℚ
  diffuse : ℚ
  specular : ℚ
  specular_power : ℚ
deriving DecidableEq, Repr

/-- `LIGHTING_CONFIG` from visualization.py lines 88-93. -/
def LIGHTING_CONFIG : LightingConfig :=
  { ambient := 0.35, diffuse := 0.65, specular := 0.15, specular_power := 8 }

/-- VTK interpolation modes reachable from this script. -/
inductive Interpolation where
  | flat
  | gouraud
  | phong
deriving DecidableEq, Repr

/-- The VTK actor property state touched by the script: what
`actor.GetProperty()` setters read and write. -/
structure ActorProp where
  color : Color
  ambient : ℚ
  diffuse : ℚ
  specular : ℚ
  specularPower : ℚ
  interpolation : Interpolation
  opacity : ℚ
deriving DecidableEq, Repr

/-! ## visualization.py — operations -/

/-- The `.obj` suffix matched by `folder.glob("*.obj")`. -/
def objExt : String := ".obj"

/-- Whether a directory entry name matches the glob pattern `*.obj`
(visualization.py line 108): `*` matches any prefix, so a name matches
iff its character sequence ends in `.obj`. -/
def matchesObj (name : String) : Bool := objExt.data.isSuffixOf name.data

/-- `load_obj_files(folder_path)` (visualization.py lines 99-121).
The filesystem is passed explicitly: `folderExists` is whether the folder
exists, `entries` its directory entries.  `sys.exit(1)` is `Except.error`;
otherwise the sorted list of `*.obj` matches is returned.  Path objects
sort by their string, embedded here with the linear order on `String`. -/
def load_obj_files (folderExists : Bool) (entries : List String) :
    Except Unit (List String) :=
  if !folderExists then
    Except.error ()
  else
    let obj_files := (entries.filter matchesObj).insertionSort (· ≤ ·)
    if obj_files.isEmpty then Except.error () else Except.ok obj_files

/-- `ALL_COLORS[idx % len(ALL_COLORS)]` (visualization.py line 230):
the color selected for the mesh at position `idx` of the file list. -/
def colorForIndex (idx : ℕ) : Color :=
  ALL_COLORS.getD (idx % ALL_COLORS.length) (0, 0, 0)

/-- `apply_realistic_material(actor, color)` (visualization.py lines
124-141): sets the color, the four `LIGHTING_CONFIG` scalars, Phong
interpolation, and `DEFAULT_OPACITY` on the actor's property. -/
def apply_realistic_material (prop : ActorProp) (color : Color) : ActorProp :=
  { prop with
    color := color
    ambient := LIGHTING_CONFIG.ambient
    diffuse := LIGHTING_CONFIG.diffuse
    specular := LIGHTING_CONFIG.specular
    specularPower := LIGHTING_CONFIG.specular_power
    interpolation := Interpolation.phong
    opacity := DEFAULT_OPACITY }

/-- The body of the `try` block for one file of the loading loop
(visualization.py lines 213-249): `pv.read`, `compute_normals` and
`add_mesh` may raise, modelled by `parse` returning `none` on failure
and otherwise the actor property state `add_mesh` created; on success
`apply_realistic_material` is applied with the index's palette color. -/
def load_one (parse : String → Option ActorProp) (idx : ℕ) (file : String) :
    Option ActorProp :=
  (parse file).map (fun actor => apply_realistic_material actor (colorForIndex idx))

/-- The loading loop of `create_realistic_heart_viewer` (visualization.py
lines 213-249) from enumeration index `idx` on: appends an actor on
success and continues with the next file (`except` prints and falls
through) on failure; the index advances for every file, loaded or not,
because `enumerate` numbers the whole list. -/
def load_actors_from (parse : String → Option ActorProp) (idx : ℕ) :
    List String → List ActorProp
  | [] => []
  | file :: rest =>
    match load_one parse idx file with
    | some actor => actor :: load_actors_from parse (idx + 1) rest
    | none => load_actors_from parse (idx + 1) rest

/-- The full loading loop, `for idx, obj_file in enumerate(obj_files)`
starting at index 0. -/
def load_actors (parse : String → Option ActorProp) (obj_files : List String) :
    List ActorProp :=
  load_actors_from parse 0 obj_files

/-- `update_opacity(value)` (visualization.py lines 272-275): sets the
given opacity on every actor of the scene. -/
def update_opacity (value : ℚ) (actors : List ActorProp) : List ActorProp :=
  actors.map (fun actor => { actor with opacity := value })

/-- The `rng` argument `[0.1, 1.0]` passed to `add_slider_widget`
(visualization.py line 279): the slider's minimum and maximum. -/
def slider_rng : ℚ × ℚ := (0.1, 1.0)

/-! ## gui.py — launcher data model -/

/-- The four detail-window classes imported at gui.py lines 5-8. -/
inductive SystemWindow where
  | cardiacWindow
  | nervousWindow
  | musculoskeletalWindow
  | dentalWindow
deriving DecidableEq, Repr

/-- The button label "Cardiac System" (gui.py line 249). -/
def cardiacName : String := "Cardiac System"

/-- The button label "Nervous System" (gui.py line 250). -/
def nervousName : String := "Nervous System"

/-- The button label "Musculoskeletal System" (gui.py line 251). -/
def musculoskeletalName : String := "Musculoskeletal System"

/-- The button label "Dental System" (gui.py line 252). -/
def dentalName : String := "Dental System"

/-- The `systems` list of `create_widgets` (gui.py lines 248-253):
one `(text, emoji)` pair per button; each button's command is
`open_system` at its own text. -/
def systems : List (String × String) :=
  [(cardiacName, "❤️"), (nervousName, "🧠"),
   (musculoskeletalName, "💪"), (dentalName, "🦷")]

/-- `MedicalSystemsGUI.open_system` (gui.py lines 287-297): the
`if`/`elif` chain selecting which detail-window class to instantiate;
no branch matches ⟹ no window is constructed (`none`). -/
def open_system (system_name : String) : Option SystemWindow :=
  if system_name = cardiacName then some SystemWindow.cardiacWindow
  else if system_name = nervousName then some SystemWindow.nervousWindow
  else if system_name = musculoskeletalName then some SystemWindow.musculoskeletalWindow
  else if system_name = dentalName then some SystemWindow.dentalWindow
  else none

/-- The Tk window state the launcher manipulates: the open Toplevel
detail windows (each a distinct widget instance, tagged by an id) and
whether `root.quit()` has been requested. -/
structure GUIState where
  openWindows : List (ℕ × SystemWindow)
  quitRequested : Bool
deriving DecidableEq, Repr

/-- Effect of `open_system` on the window state: a matching branch
constructs one new Toplevel (`fresh` is its widget id); otherwise the
state is untouched. -/
def open_system_state (system_name : String) (fresh : ℕ) (st : GUIState) : GUIState :=
  match open_system system_name with
  | some w => { st with openWindows := st.openWindows ++ [(fresh, w)] }
  | none => st

/-- gui.py line 198: `self.root.bind('<Escape>', lambda e: self.root.quit())` —
Escape in the launcher's main window requests quitting the application. -/
def escape_main (st : GUIState) : GUIState :=
  { st with quitRequested := true }

/-- `self.window.destroy()`: destroying one Toplevel removes exactly that
widget instance from the open windows. -/
def destroy_window (wid : ℕ) (st : GUIState) : GUIState :=
  { st with openWindows := st.openWindows.filter (fun w => w.1 ≠ wid) }

/-- Escape binding of a detail window, applied to its own widget id.
For `cardiacWindow` this is Cardiac_System.py line 39:
`self.window.bind("<Escape>", lambda e: self.window.destroy())`.
Modelled from the spec: `Systems/Nervous_System.py`,
`Systems/Musculoskeletal_System.py` and `Systems/Dental_System.py` are
imported by gui.py but missing from the repository snapshot; the spec
says the launcher opens "four near-identical placeholder detail windows"
and "Escape key closes the active window", so each of the other three
windows likewise binds Escape to destroying its own window. -/
def escape_detail (_w : SystemWindow) (wid : ℕ) (st : GUIState) : GUIState :=
  destroy_window wid st

/-! ## gui.py — ModernButton.create_rounded_rect_border -/

/-- Python `range(a, b)` over integers. -/
def pyRange (a b : ℤ) : List ℤ :=
  (List.range (b - a).toNat).map (fun k => a + k)

/-- Python `range(a, b, -1)` over integers. -/
def pyRangeDown (a b : ℤ) : List ℤ :=
  (List.range (a - b).toNat).map (fun k => a - k)

/-- `math.radians` of an integer degree count. -/
noncomputable def radiansOf (angle : ℤ) : ℝ :=
  angle * Real.pi / 180

/-- One point of the "Right top arc" loop (gui.py lines 102-106). -/
noncomputable def rt_arc_point (y1 x2 radius : ℤ) (angle : ℤ) : ℝ × ℝ :=
  ((x2 : ℝ) - radius + radius * Real.cos (radiansOf angle),
   (y1 : ℝ) + radius - radius * Real.sin (radiansOf angle))

/-- One point of the "Right bottom arc" loop (gui.py lines 111-115). -/
noncomputable def rb_arc_point (x2 y2 radius : ℤ) (angle : ℤ) : ℝ × ℝ :=
  ((x2 : ℝ) - radius + radius * Real.cos (radiansOf angle),
   (y2 : ℝ) - radius - radius * Real.sin (radiansOf angle))

/-- One point of the "Left bottom arc" loop (gui.py lines 120-124). -/
noncomputable def lb_arc_point (x1 y2 radius : ℤ) (angle : ℤ) : ℝ × ℝ :=
  ((x1 : ℝ) + radius + radius * Real.cos (radiansOf angle),
   (y2 : ℝ) - radius - radius * Real.sin (radiansOf angle))

/-- One point of the "Left top arc" loop (gui.py lines 129-133). -/
noncomputable def lt_arc_point (x1 y1 radius : ℤ) (angle : ℤ) : ℝ × ℝ :=
  ((x1 : ℝ) + radius + radius * Real.cos (radiansOf angle),
   (y1 : ℝ) + radius - radius * Real.sin (radiansOf angle))

/-- `ModernButton.create_rounded_rect_border` (gui.py lines 95-137): the
`points` list fed to `create_line`, in append order — top side, right top
arc (`range(0, 91, 5)`), right side, right bottom arc (`range(90, 181, 5)`),
bottom side, left bottom arc (`range(180, 271, 5)`), left side, left top
arc (`range(270, 361, 5)`). -/
noncomputable def create_rounded_rect_border (x1 y1 x2 y2 radius : ℤ) :
    List (ℝ × ℝ) :=
  (pyRange (x1 + radius) (x2 - radius + 1)).map (fun i => ((i : ℝ), (y1 : ℝ)))
  ++ (List.range 19).map (fun (k : ℕ) => rt_arc_point y1 x2 radius (5 * (k : ℤ)))
  ++ (pyRange (y1 + radius) (y2 - radius + 1)).map (fun i => ((x2 : ℝ), (i : ℝ)))
  ++ (List.range 19).map (fun (k : ℕ) => rb_arc_point x2 y2 radius (90 + 5 * (k : ℤ)))
  ++ (pyRangeDown (x2 - radius) (x1 + radius - 1)).map (fun i => ((i : ℝ), (y2 : ℝ)))
  ++ (List.range 19).map (fun (k : ℕ) => lb_arc_point x1 y2 radius (180 + 5 * (k : ℤ)))
  ++ (pyRangeDown (y2 - radius) (y1 + radius - 1)).map (fun i => ((x1 : ℝ), (i : ℝ)))
  ++ (List.range 19).map (fun (k : ℕ) => lt_arc_point x1 y1 radius (270 + 5 * (k : ℤ)))

/-- Membership in the boundary of the rounded rectangle with corners
`(x1,y1)`-`(x2,y2)` and corner radius `radius`, stated from the claim's
wording: a point lies on one of the four straight side segments, or at
distance exactly `radius` from the center of one of the four corner
circles within that corner's outer quadrant. -/
def onRoundedRectBoundary (x1 y1 x2 y2 radius : ℝ) (p : ℝ × ℝ) : Prop :=
  (p.2 = y1 ∧ x1 + radius ≤ p.1 ∧ p.1 ≤ x2 - radius) ∨
  (p.2 = y2 ∧ x1 + radius ≤ p.1 ∧ p.1 ≤ x2 - radius) ∨
  (p.1 = x1 ∧ y1 + radius ≤ p.2 ∧ p.2 ≤ y2 - radius) ∨
  (p.1 = x2 ∧ y1 + radius ≤ p.2 ∧ p.2 ≤ y2 - radius) ∨
  ((p.1 - (x2 - radius)) ^ 2 + (p.2 - (y1 + radius)) ^ 2 = radius ^ 2 ∧
    x2 - radius ≤ p.1 ∧ p.2 ≤ y1 + radius) ∨
  ((p.1 - (x2 - radius)) ^ 2 + (p.2 - (y2 - radius)) ^ 2 = radius ^ 2 ∧
    x2 - radius ≤ p.1 ∧ y2 - radius ≤ p.2) ∨
  ((p.1 - (x1 + radius)) ^ 2 + (p.2 - (y2 - radius)) ^ 2 = radius ^ 2 ∧
    p.1 ≤ x1 + radius ∧ y2 - radius ≤ p.2) ∨
  ((p.1 - (x1 + radius)) ^ 2 + (p.2 - (y1 + radius)) ^ 2 = radius ^ 2 ∧
    p.1 ≤ x1 + radius ∧ p.2 ≤ y1 + radius)

/-! ## Sample inputs used by the concrete witnesses -/

/-- A system name outside the four recognized button labels. -/
def renalName : String := "Renal System"

/-- A sample directory listing: two mesh files and one unrelated file. -/
def sampleEntries : List String := ["b.obj", "a.txt", "a.obj"]

/-- The same listing enumerated in a different order. -/
def sampleEntriesShuffled : List String := ["a.obj", "b.obj", "a.txt"]

/-- A mesh file name that parses successfully in the samples. -/
def goodObj : String := "aorta.obj"

/-- A second mesh file name that parses successfully in the samples. -/
def ventricleObj : String := "ventricle.obj"

/-- A mesh file name whose parse fails in the samples. -/
def brokenObj : String := "broken.obj"

/-- The actor property state a sample `add_mesh` call produces. -/
def sampleActor : ActorProp :=
  { color := (0, 0, 0), ambient := 0, diffuse := 0, specular := 0,
    specularPower := 0, interpolation := Interpolation.flat, opacity := 0 }

/-- A sample parse outcome: every file yields `sampleActor` except
`brokenObj`, which raises. -/
def sampleParse (file : String) : Option ActorProp :=
  if file = brokenObj then none else some sampleActor

/-- A sample launcher state with two detail windows open. -/
def sampleGUIState : GUIState :=
  { openWindows := [(1, SystemWindow.cardiacWindow), (2, SystemWindow.dentalWindow)],
    quitRequested := false }

/-! ## Theorems -/

/-- C1: the color assigned to the mesh file at 0-based index `i` of the
sorted file list is `ALL_COLORS[i % 14]`, and `ALL_COLORS` is exactly the
4 muscle-tissue tones repeated twice (8 entries), then the 3 arterial
tones, then the 3 venous tones — 14 colors in all. -/
theorem color_palette_cycles_mod_fourteen :
    ALL_COLORS = (muscle_tissue ++ muscle_tissue) ++ arterial ++ venous ∧
    muscle_tissue.length = 4 ∧ arterial.length = 3 ∧ venous.length = 3 ∧
    ALL_COLORS.length = 14 ∧
    (∀ idx : ℕ, colorForIndex idx = ALL_COLORS.getD (idx % 14) (0, 0, 0)) := by
  refine ⟨rfl, rfl, rfl, rfl, rfl, fun idx => ?_⟩
  have h : ALL_COLORS.length = 14 := rfl
  rw [colorForIndex, h]

/-- C7: the launcher builds exactly four system buttons, labelled
"Cardiac System", "Nervous System", "Musculoskeletal System" and
"Dental System", and `open_system` maps each of these labels to the
corresponding detail-window class. -/
theorem launcher_four_buttons_dispatch :
    systems.map Prod.fst =
      [cardiacName, nervousName, musculoskeletalName, dentalName] ∧
    systems.length = 4 ∧
    cardiacName = "Cardiac System" ∧ nervousName = "Nervous System" ∧
    musculoskeletalName = "Musculoskeletal System" ∧
    dentalName = "Dental System" ∧
    open_system cardiacName = some SystemWindow.cardiacWindow ∧
    open_system nervousName = some SystemWindow.nervousWindow ∧
    open_system musculoskeletalName = some SystemWindow.musculoskeletalWindow ∧
    open_system dentalName = some SystemWindow.dentalWindow := by
  refine ⟨rfl, rfl, rfl, rfl, rfl, rfl, ?_, ?_, ?_, ?_⟩ <;> decide

/-- C8: calling `open_system` with any name other than the four
recognized labels matches no branch: no window class is selected and the
window state is unchanged. -/
theorem open_system_unrecognized_noop (s : String)
    (h : s ∉ [cardiacName, nervousName, musculoskeletalName, dentalName]) :
    open_system s = none ∧
    ∀ (fresh : ℕ) (st : GUIState), open_system_state s fresh st = st := by
  simp only [List.mem_cons, List.not_mem_nil, or_false, not_or] at h
  obtain ⟨h1, h2, h3, h4⟩ := h
  have ho : open_system s = none := by
    simp [open_system, h1, h2, h3, h4]
  exact ⟨ho, fun fresh st => by simp [open_system_state, ho]⟩

/-- Witness for C8 at the concrete unrecognized name "Renal System". -/
theorem open_system_unrecognized_noop_witness :
    renalName ∉ [cardiacName, nervousName, musculoskeletalName, dentalName] ∧
    (open_system renalName = none ∧
      ∀ (fresh : ℕ) (st : GUIState), open_system_state renalName fresh st = st) :=
  ⟨by decide, open_system_unrecognized_noop renalName (by decide)⟩

/-- C5: Escape in a detail window destroys exactly that window (the quit
flag and every other open window are untouched), and Escape in the
launcher's main window quits the application. -/
theorem escape_closes_active_window :
    (∀ (w : SystemWindow) (wid : ℕ) (st : GUIState),
      (escape_detail w wid st).quitRequested = st.quitRequested ∧
      (escape_detail w wid st).openWindows =
        st.openWindows.filter (fun p => p.1 ≠ wid) ∧
      (∀ p ∈ st.openWindows, p.1 ≠ wid → p ∈ (escape_detail w wid st).openWindows) ∧
      (∀ k, (wid, k) ∉ (escape_detail w wid st).openWindows)) ∧
    (∀ st : GUIState,
      (escape_main st).quitRequested = true ∧
      (escape_main st).openWindows = st.openWindows) := by
  constructor
  · intro w wid st
    refine ⟨rfl, rfl, ?_, ?_⟩
    · intro p hp hne
      simp [escape_detail, destroy_window, List.mem_filter, hp, hne]
    · intro k
      simp [escape_detail, destroy_window, List.mem_filter]
  · intro st
    exact ⟨rfl, rfl⟩

/-- Witness for C5: in the sample state, Escape in the cardiac window
(widget id 1) keeps the dental window and removes the cardiac one. -/
theorem escape_closes_active_window_witness :
    (2, SystemWindow.dentalWindow) ∈
      (escape_detail SystemWindow.cardiacWindow 1 sampleGUIState).openWindows ∧
    (1, SystemWindow.cardiacWindow) ∉
      (escape_detail SystemWindow.cardiacWindow 1 sampleGUIState).openWindows :=
  ⟨(escape_closes_active_window.1 SystemWindow.cardiacWindow 1 sampleGUIState).2.2.1
      (2, SystemWindow.dentalWindow) (by decide) (by decide),
   (escape_closes_active_window.1 SystemWindow.cardiacWindow 1 sampleGUIState).2.2.2
      SystemWindow.cardiacWindow⟩

/-- The loading loop distributes over list append: the enumeration index
of the second part starts where the first part ended. -/
theorem load_actors_from_append (parse : String → Option ActorProp)
    (pre post : List String) :
    ∀ idx, load_actors_from parse idx (pre ++ post) =
      load_actors_from parse idx pre ++
        load_actors_from parse (idx + pre.length) post := by
  induction pre with
  | nil => intro idx; simp [load_actors_from]
  | cons f rest ih =>
    intro idx
    simp only [List.cons_append, load_actors_from]
    have hlen : idx + 1 + rest.length = idx + (rest.length + 1) := by omega
    cases h : load_one parse idx f with
    | some a => simp [ih (idx + 1), hlen, List.length_cons]
    | none => simp [ih (idx + 1), hlen, List.length_cons]

/-- C2: a missing folder exits (`sys.exit(1)`), a folder with no `.obj`
entries exits, and a file that fails to parse is skipped — the actors are
exactly those of the files before it followed by those of the files after
it, which keep their original enumeration indices. -/
theorem startup_failures_exit_or_skip :
    (∀ entries : List String, load_obj_files false entries = Except.error ()) ∧
    (∀ entries : List String, entries.filter matchesObj = [] →
      load_obj_files true entries = Except.error ()) ∧
    (∀ (parse : String → Option ActorProp) (idx : ℕ) (pre : List String)
        (file : String) (post : List String), parse file = none →
      load_actors_from parse idx (pre ++ file :: post) =
        load_actors_from parse idx pre ++
          load_actors_from parse (idx + pre.length + 1) post) := by
  refine ⟨fun entries => rfl, fun entries h => ?_, ?_⟩
  · simp [load_obj_files, h, List.insertionSort]
  · intro parse idx pre file post hf
    rw [load_actors_from_append]
    simp [load_actors_from, load_one, hf]

/-- Witness for C2 on concrete inputs: a missing folder errors, a folder
with only "a.txt" errors, and a broken middle file is skipped while its
neighbours load with their original indices. -/
theorem startup_failures_exit_or_skip_witness :
    load_obj_files false sampleEntries = Except.error () ∧
    load_obj_files true ["a.txt"] = Except.error () ∧
    load_actors_from sampleParse 0 ([goodObj] ++ brokenObj :: [ventricleObj]) =
      load_actors_from sampleParse 0 [goodObj] ++
        load_actors_from sampleParse 2 [ventricleObj] :=
  ⟨startup_failures_exit_or_skip.1 sampleEntries,
   startup_failures_exit_or_skip.2.1 ["a.txt"] (by decide),
   startup_failures_exit_or_skip.2.2 sampleParse 0 [goodObj] brokenObj
      [ventricleObj] (by decide)⟩

/-- C4: whenever `load_obj_files` returns (rather than exiting), its
result is sorted ascending and holds exactly the directory entries
matching `*.obj`; entries with any other extension never appear. -/
theorem load_obj_files_exact_sorted (folderExists : Bool)
    (entries l : List String)
    (h : load_obj_files folderExists entries = Except.ok l) :
    l.Sorted (· ≤ ·) ∧ l.Perm (entries.filter matchesObj) ∧
    (∀ f, f ∈ l ↔ f ∈ entries ∧ matchesObj f = true) := by
  cases folderExists with
  | false => simp [load_obj_files] at h
  | true =>
    simp only [load_obj_files, Bool.not_true, Bool.false_eq_true, if_false] at h
    split at h
    · exact absurd h (by simp)
    · injection h with h
      subst h
      refine ⟨List.sorted_insertionSort _ _, List.perm_insertionSort _ _, fun f => ?_⟩
      rw [(List.perm_insertionSort _ _).mem_iff, List.mem_filter]

/-- Witness for C4 on the sample directory: the run returns
`["a.obj", "b.obj"]`, sorted, a permutation of the `*.obj` entries. -/
theorem load_obj_files_exact_sorted_witness :
    (["a.obj", "b.obj"] : List String).Sorted (· ≤ ·) ∧
    (["a.obj", "b.obj"] : List String).Perm (sampleEntries.filter matchesObj) := by
  have h : load_obj_files true sampleEntries = Except.ok ["a.obj", "b.obj"] := by
    have h1 : sampleEntries.filter matchesObj = ["b.obj", "a.obj"] := by decide
    have hba : ¬ (("b.obj" : String) ≤ "a.obj") := by
      rw [String.le_iff_toList_le]; decide
    simp only [load_obj_files, h1, List.insertionSort, List.orderedInsert,
      Bool.not_true, Bool.false_eq_true, if_false, hba]
    rfl
  exact ⟨(load_obj_files_exact_sorted true sampleEntries _ h).1,
         (load_obj_files_exact_sorted true sampleEntries _ h).2.1⟩

/-- C9: the opacity-slider callback rewrites every actor's opacity to the
given value and leaves every other property — and the list of actors
itself — unchanged; the slider's configured range is `[0.1, 1.0]`. -/
theorem update_opacity_uniform (value : ℚ) (actors : List ActorProp) :
    (update_opacity value actors).length = actors.length ∧
    slider_rng = (0.1, 1.0) ∧
    ∀ (i : ℕ) (a : ActorProp), actors[i]? = some a →
      (update_opacity value actors)[i]? = some { a with opacity := value } := by
  refine ⟨by simp [update_opacity], rfl, fun i a h => ?_⟩
  simp [update_opacity, List.getElem?_map, h]

/-- Witness for C9: halving the opacity of a one-actor scene. -/
theorem update_opacity_uniform_witness :
    (update_opacity (1/2) [sampleActor]).length = 1 ∧
    (update_opacity (1/2) [sampleActor])[0]? =
      some { sampleActor with opacity := 1/2 } :=
  ⟨(update_opacity_uniform (1/2) [sampleActor]).1,
   (update_opacity_uniform (1/2) [sampleActor]).2.2 0 sampleActor rfl⟩

/-- Every actor the loading loop emits is some parsed actor with
`apply_realistic_material` applied at some enumeration index. -/
theorem load_actors_from_mem (parse : String → Option ActorProp) :
    ∀ (files : List String) (idx : ℕ) (actor : ActorProp),
      actor ∈ load_actors_from parse idx files →
      ∃ (i : ℕ) (a0 : ActorProp),
        actor = apply_realistic_material a0 (colorForIndex i) := by
  intro files
  induction files with
  | nil => intro idx actor h; simp [load_actors_from] at h
  | cons f rest ih =>
    intro idx actor h
    rw [load_actors_from] at h
    cases hl : load_one parse idx f with
    | none => rw [hl] at h; exact ih (idx + 1) actor h
    | some a =>
      rw [hl] at h
      rcases List.mem_cons.mp h with rfl | h2
      · rw [load_one] at hl
        obtain ⟨a0, _, ha⟩ := Option.map_eq_some'.mp hl
        exact ⟨idx, a0, ha.symm⟩
      · exact ih (idx + 1) actor h2

/-- C6: every actor in the scene carries the same lighting preset —
ambient 0.35, diffuse 0.65, specular 0.15, specular power 8, Phong
interpolation, opacity 1.0 — whatever its index or color. -/
theorem lighting_preset_uniform (parse : String → Option ActorProp)
    (files : List String) (actor : ActorProp)
    (h : actor ∈ load_actors parse files) :
    actor.ambient = 0.35 ∧ actor.diffuse = 0.65 ∧ actor.specular = 0.15 ∧
    actor.specularPower = 8 ∧ actor.interpolation = Interpolation.phong ∧
    actor.opacity = DEFAULT_OPACITY ∧ DEFAULT_OPACITY = 1 := by
  obtain ⟨i, a0, rfl⟩ := load_actors_from_mem parse files 0 actor h
  exact ⟨rfl, rfl, rfl, rfl, rfl, rfl, by norm_num [DEFAULT_OPACITY]⟩

/-- Witness for C6: the single actor loaded from the sample folder has
the full lighting preset. -/
theorem lighting_preset_uniform_witness :
    (apply_realistic_material sampleActor (colorForIndex 0)).ambient = 0.35 ∧
    (apply_realistic_material sampleActor (colorForIndex 0)).diffuse = 0.65 ∧
    (apply_realistic_material sampleActor (colorForIndex 0)).specular = 0.15 ∧
    (apply_realistic_material sampleActor (colorForIndex 0)).specularPower = 8 ∧
    (apply_realistic_material sampleActor (colorForIndex 0)).interpolation =
      Interpolation.phong ∧
    (apply_realistic_material sampleActor (colorForIndex 0)).opacity =
      DEFAULT_OPACITY ∧ DEFAULT_OPACITY = 1 :=
  lighting_preset_uniform sampleParse [goodObj]
    (apply_realistic_material sampleActor (colorForIndex 0)) (by
      have hrun : load_actors sampleParse [goodObj] =
          [apply_realistic_material sampleActor (colorForIndex 0)] := by
        simp [load_actors, load_actors_from, load_one, sampleParse, goodObj, brokenObj]
      rw [hrun]
      exact List.mem_singleton_self _)

/-- C10: `load_obj_files` is invariant under the enumeration order of the
directory, so the palette color paired with each discovered file is the
same in any two runs over the same set of entries. -/
theorem color_assignment_run_invariant (folderExists : Bool)
    (fs1 fs2 : List String) (h : fs1.Perm fs2) :
    load_obj_files folderExists fs1 = load_obj_files folderExists fs2 ∧
    (∀ l1 l2, load_obj_files folderExists fs1 = Except.ok l1 →
      load_obj_files folderExists fs2 = Except.ok l2 →
      l1.mapIdx (fun i f => (f, colorForIndex i)) =
        l2.mapIdx (fun i f => (f, colorForIndex i))) := by
  have key : load_obj_files folderExists fs1 = load_obj_files folderExists fs2 := by
    cases folderExists with
    | false => rfl
    | true =>
      have hperm : (fs1.filter matchesObj).Perm (fs2.filter matchesObj) :=
        h.filter matchesObj
      have heq : (fs1.filter matchesObj).insertionSort (· ≤ ·) =
          (fs2.filter matchesObj).insertionSort (· ≤ ·) :=
        List.eq_of_perm_of_sorted
          (((List.perm_insertionSort _ _).trans hperm).trans
            (List.perm_insertionSort _ _).symm)
          (List.sorted_insertionSort _ _) (List.sorted_insertionSort _ _)
      simp only [load_obj_files, heq]
  refine ⟨key, fun l1 l2 h1 h2 => ?_⟩
  rw [key, h2] at h1
  injection h1 with h1
  rw [h1]

/-- Witness for C10: two shuffles of the sample directory produce the
same result. -/
theorem color_assignment_run_invariant_witness :
    load_obj_files true sampleEntries = load_obj_files true sampleEntriesShuffled :=
  (color_assignment_run_invariant true sampleEntries sampleEntriesShuffled
    (by decide)).1

/-- Sanity check for the boundary predicate: the first right-top arc
sample (angle 0) is the point `(x2, y1 + radius)` and does lie on the
boundary of the rounded rectangle. -/
theorem rt_arc_start_on_boundary :
    rt_arc_point 10 440 24 0 = ((440 : ℝ), (34 : ℝ)) ∧
    onRoundedRectBoundary 10 10 440 190 24 ((440 : ℝ), (34 : ℝ)) := by
  constructor
  · unfold rt_arc_point radiansOf
    norm_num
  · unfold onRoundedRectBoundary
    norm_num

/-- C3 (refuted): the first sample of the "right bottom arc" loop, angle
90 at the concrete call `create_rounded_rect_border(10, 10, 440, 190, 24)`
from `create_rounded_rect`, is the point `(416, 142)`.  It is at distance
exactly 24 from the bottom-right corner center `(416, 166)`, but it sits
in that circle's upper-left quadrant — strictly inside the rectangle — so
it lies on no side segment and on no corner arc's outer quadrant: the
generated polyline leaves the rounded rectangle's boundary. -/
theorem border_point_off_boundary :
    ((416 : ℝ), (142 : ℝ)) ∈ create_rounded_rect_border 10 10 440 190 24 ∧
    (((416 : ℝ) - (440 - 24)) ^ 2 + ((142 : ℝ) - (190 - 24)) ^ 2 = 24 ^ 2) ∧
    ¬ onRoundedRectBoundary 10 10 440 190 24 ((416 : ℝ), (142 : ℝ)) := by
  have hrad : radiansOf 90 = Real.pi / 2 := by
    unfold radiansOf
    push_cast
    ring
  have hpt : rb_arc_point 440 190 24 90 = ((416 : ℝ), (142 : ℝ)) := by
    unfold rb_arc_point
    rw [hrad, Real.cos_pi_div_two, Real.sin_pi_div_two]
    norm_num
  refine ⟨?_, by norm_num, ?_⟩
  · have h0 : (0 : ℕ) ∈ List.range 19 := List.mem_range.mpr (by norm_num)
    have heq : rb_arc_point 440 190 24 (90 + 5 * ((0 : ℕ) : ℤ)) =
        ((416 : ℝ), (142 : ℝ)) := by simpa using hpt
    have hmem : ((416 : ℝ), (142 : ℝ)) ∈ (List.range 19).map
        (fun (k : ℕ) => rb_arc_point 440 190 24 (90 + 5 * (k : ℤ))) :=
      List.mem_map.mpr ⟨0, h0, heq⟩
    unfold create_rounded_rect_border
    simp only [List.mem_append]
    left; left; left; left; right
    exact hmem
  · unfold onRoundedRectBoundary
    push_neg
    norm_num
